import Mathlib

/-! Shallow embedding of the core logic of the Business-Intelligence-Dashboard
repository: the financial derivation pipeline (`Financial.save`), the project
lifecycle engine (`Project.save`), contract saving (`ProjectContract.save`),
all in `market_analysis/models.py`, and the similarity scorer
(`normalize_name` / `calculate_similarity` in `import_obn_lost_bids.py`).
Python `Decimal` values and `float` scores are modelled as exact rationals
(`ℚ`), Python `None` as `Option.none`, and calendar dates as integer day
numbers (so `date2 - date1` in days is plain integer subtraction). -/

/- ### Decimal rounding
`value.quantize(Decimal("0.01"), rounding=ROUND_HALF_UP)`: round to two
decimal places, ties away from zero (Python's ROUND_HALF_UP). -/

def roundHalfUp (x : ℚ) : ℤ :=
  if 0 ≤ x then ⌊x + 1/2⌋ else -⌊-x + 1/2⌋

def quantize2 (x : ℚ) : ℚ :=
  (roundHalfUp (x * 100) : ℚ) / 100

def quantize2? : Option ℚ → Option ℚ
  | none => none
  | some x => some (quantize2 x)

/- ### Financial derivation (`Financial.save`, models.py lines 606-737) -/

def OVERHEAD_DAYRATE_DEFAULT : ℚ := 21000

structure FinancialInputs where
  total_direct_cost : Option ℚ
  gm : Option ℚ
  overhead_dayrate : Option ℚ
  duration_with_dt : Option ℚ
  depreciation : Option ℚ
  taxes : Option ℚ
deriving DecidableEq

structure FinancialDerived where
  total_revenue : Option ℚ
  gp : Option ℚ
  total_overhead : Option ℚ
  ebitda_amount : Option ℚ
  ebitda_pct : Option ℚ
  ebit_amount : Option ℚ
  ebit_pct : Option ℚ
  net_amount : Option ℚ
  net_pct : Option ℚ
  ebit_day : Option ℚ
  net_day : Option ℚ
deriving DecidableEq

/-- Resolution `overhead_rate = self._to_decimal(self.overhead_dayrate) or
OVERHEAD_DAYRATE_DEFAULT` (models.py line 624): Python's `or` falls back to
the default both for `None` and for a falsy (zero) Decimal. -/
def resolveOverheadRate : Option ℚ → ℚ
  | none => OVERHEAD_DAYRATE_DEFAULT
  | some r => if r = 0 then OVERHEAD_DAYRATE_DEFAULT else r

/-- Embedding of `Financial.save`.  Each step mirrors one guarded block of
the Python method, and every output is quantized half-up to 2 decimal
places. -/
def financialSave (i : FinancialInputs) : FinancialDerived :=
  let cost := i.total_direct_cost
  let gm_pct := i.gm
  let overhead_rate : ℚ := resolveOverheadRate i.overhead_dayrate
  let depreciation := i.depreciation
  let taxes := i.taxes
  let duration_td := i.duration_with_dt
  let gm_frac : Option ℚ :=
    match gm_pct with
    | none => none
    | some g => some (g / 100)
  let total_revenue : Option ℚ :=
    match cost, gm_frac with
    | some c, some f => if (1 - f) ≠ 0 then some (c / (1 - f)) else none
    | _, _ => none
  let gp : Option ℚ :=
    match total_revenue, cost with
    | some r, some c => some (r - c)
    | _, _ => none
  let total_overhead : Option ℚ :=
    match duration_td with
    | some d => if d ≠ 0 then some (overhead_rate * d) else none
    | none => none
  let ebitda_amount : Option ℚ :=
    match gp, total_overhead with
    | some g, some o => some (g - o)
    | some g, none => some g
    | none, _ => none
  let ebitda_pct : Option ℚ :=
    match ebitda_amount, total_revenue with
    | some e, some r => if r ≠ 0 then some (e / r * 100) else none
    | _, _ => none
  let ebit_amount : Option ℚ :=
    match ebitda_amount, depreciation with
    | some e, some dep => some (e - dep)
    | some e, none => some e
    | none, _ => none
  let ebit_pct : Option ℚ :=
    match ebit_amount, total_revenue with
    | some e, some r => if r ≠ 0 then some (e / r * 100) else none
    | _, _ => none
  let net_amount : Option ℚ :=
    match ebit_amount, taxes with
    | some e, some t => some (e - t)
    | some e, none => some e
    | none, _ => none
  let net_pct : Option ℚ :=
    match net_amount, total_revenue with
    | some n, some r => if r ≠ 0 then some (n / r * 100) else none
    | _, _ => none
  let ebit_day : Option ℚ :=
    match duration_td with
    | some d =>
      if 0 < d then
        match ebit_amount with
        | some e => some (e / d)
        | none => none
      else none
    | none => none
  let net_day : Option ℚ :=
    match duration_td with
    | some d =>
      if 0 < d then
        match net_amount with
        | some n => some (n / d)
        | none => none
      else none
    | none => none
  { total_revenue := quantize2? total_revenue
    gp := quantize2? gp
    total_overhead := quantize2? total_overhead
    ebitda_amount := quantize2? ebitda_amount
    ebitda_pct := quantize2? ebitda_pct
    ebit_amount := quantize2? ebit_amount
    ebit_pct := quantize2? ebit_pct
    net_amount := quantize2? net_amount
    net_pct := quantize2? net_pct
    ebit_day := quantize2? ebit_day
    net_day := quantize2? net_day }

/- ### Lifecycle engine (`Project.save`, models.py lines 142-285)
Statuses and bid types are the fixed enumerations of the `Project` model.
The parts of `Project.save` relevant to the claims are embedded: milestone
date stamping, snapshot capture, history rows, contract creation and the
unified change log.  Each Python `try/except Exception: pass` block around an
audit write is modelled by boolean "this write succeeds" flags: a `false`
flag stands for the write raising, in which case the write (and the rest of
the same `try` block) contributes nothing and the save continues. -/

inductive BidStatus
  | Ongoing | Submitted | Won | Lost | Cancelled | NoBid
deriving DecidableEq

inductive BidType
  | RFQ | RFP | RFI | MC | DR | BQ
deriving DecidableEq

def BidStatus.str : BidStatus → String
  | .Ongoing => "Ongoing"
  | .Submitted => "Submitted"
  | .Won => "Won"
  | .Lost => "Lost"
  | .Cancelled => "Cancelled"
  | .NoBid => "No Bid"

def BidType.str : BidType → String
  | .RFQ => "RFQ"
  | .RFP => "RFP"
  | .RFI => "RFI"
  | .MC => "MC"
  | .DR => "DR"
  | .BQ => "BQ"

structure ProjRec where
  bid_type : BidType
  status : BidStatus
  submission_date : Option ℤ
  award_date : Option ℤ
  lost_date : Option ℤ
deriving DecidableEq

/-- models.py lines 167-170: `Ongoing -> Submitted` (or creation already in
Submitted, or any non-Submitted previous status) sets `submission_date` when
missing.  The disjunction is the literal Python condition. -/
def stampSubmission (prev_status : Option BidStatus) (today : ℤ) (p : ProjRec) : ProjRec :=
  if p.status = .Submitted ∧
      (prev_status = none ∨ prev_status = some .Ongoing ∨ prev_status ≠ some .Submitted) ∧
      p.submission_date = none
  then { p with submission_date := some today } else p

/-- models.py lines 172-175: `Submitted -> Won` sets `award_date` when missing. -/
def stampAward (prev_status : Option BidStatus) (today : ℤ) (p : ProjRec) : ProjRec :=
  if prev_status = some .Submitted ∧ p.status = .Won ∧ p.award_date = none
  then { p with award_date := some today } else p

/-- models.py lines 177-180: `Submitted -> Lost` sets `lost_date` when missing. -/
def stampLost (prev_status : Option BidStatus) (today : ℤ) (p : ProjRec) : ProjRec :=
  if prev_status = some .Submitted ∧ p.status = .Lost ∧ p.lost_date = none
  then { p with lost_date := some today } else p

/-- The milestone-date assignment of `Project.save`, lines 164-180. -/
def applyTransitionDates (prev_status : Option BidStatus) (p : ProjRec) (today : ℤ) : ProjRec :=
  stampLost prev_status today (stampAward prev_status today (stampSubmission prev_status today p))

inductive ChangeKind
  | STATUS | BID
deriving DecidableEq

/-- A `ChangeLog` row (models.py lines 505-534) restricted to the fields the
save method writes. -/
structure ChangeLogRow where
  change_type : ChangeKind
  field_name : String
  previous_value : Option String
  new_value : String
  event_date : Option ℤ
deriving DecidableEq

/-- The audit side stores touched by `Project.save`: `ProjectSnapshot`,
`BidTypeHistory`, `ProjectStatusHistory`, `ChangeLog` rows and the existence
of the one-to-one `ProjectContract` row. -/
structure AuditDB where
  snapshots : List (ChangeKind × ProjRec)
  bid_history : List (Option BidType × BidType)
  status_history : List (Option BidStatus × BidStatus)
  changelog : List ChangeLogRow
  has_contract : Bool
deriving DecidableEq

/-- One success flag per audit-store write attempted by `Project.save`;
`false` models that write raising an exception inside its `try` block. -/
structure AuditFlags where
  snap_bid_ok : Bool
  snap_status_ok : Bool
  hist_bid_ok : Bool
  hist_status_ok : Bool
  contract_ok : Bool
  cl_status_ok : Bool
  cl_bid_ok : Bool
deriving DecidableEq

def allOk : AuditFlags := ⟨true, true, true, true, true, true, true⟩

/-- models.py lines 182-201: the single `try` block creating the BID snapshot
and then the STATUS snapshot.  A failing first write aborts the block, so the
second snapshot is also skipped. -/
def snapshotBlock (prev : Option ProjRec) (p : ProjRec) (fl : AuditFlags) :
    List (ChangeKind × ProjRec) :=
  match prev with
  | none => []
  | some pv =>
    if pv.bid_type ≠ p.bid_type then
      if fl.snap_bid_ok then
        (ChangeKind.BID, pv) ::
          (if pv.status ≠ p.status ∧ fl.snap_status_ok then [(ChangeKind.STATUS, pv)] else [])
      else []
    else if pv.status ≠ p.status ∧ fl.snap_status_ok then [(ChangeKind.STATUS, pv)] else []

/-- models.py lines 263-274: the STATUS `ChangeLog` row, whose `event_date`
is the milestone date matching the new status. -/
def statusLogRow (prev_status : Option BidStatus) (p : ProjRec) : ChangeLogRow :=
  { change_type := .STATUS
    field_name := "status"
    previous_value := prev_status.map BidStatus.str
    new_value := p.status.str
    event_date :=
      if p.status = .Submitted then p.submission_date
      else if p.status = .Won then p.award_date
      else if p.status = .Lost then p.lost_date
      else none }

/-- models.py lines 275-283: the BID `ChangeLog` row (no event date). -/
def bidLogRow (prev_bid : Option BidType) (p : ProjRec) : ChangeLogRow :=
  { change_type := .BID
    field_name := "bid_type"
    previous_value := prev_bid.map BidType.str
    new_value := p.bid_type.str
    event_date := none }

/-- models.py lines 261-285: the single `try` block appending the STATUS row
and then the BID row to the unified change log.  A failing STATUS write
aborts the block, skipping the BID row too. -/
def changeLogBlock (prev_bid : Option BidType) (prev_status : Option BidStatus)
    (p : ProjRec) (fl : AuditFlags) : List ChangeLogRow :=
  if prev_status ≠ some p.status then
    if fl.cl_status_ok then
      statusLogRow prev_status p ::
        (if prev_bid ≠ some p.bid_type ∧ fl.cl_bid_ok then [bidLogRow prev_bid p] else [])
    else []
  else if prev_bid ≠ some p.bid_type ∧ fl.cl_bid_ok then [bidLogRow prev_bid p] else []

/-- All audit-store writes of `Project.save`, in source order: snapshots
(before the primary write), then bid-type history, status history, contract
creation for `Won`, and the unified change-log rows. -/
def auditWrites (prev : Option ProjRec) (p : ProjRec) (fl : AuditFlags) (db : AuditDB) : AuditDB :=
  let prev_bid := prev.map (·.bid_type)
  let prev_status := prev.map (·.status)
  let db1 := { db with snapshots := db.snapshots ++ snapshotBlock prev p fl }
  let db2 :=
    if prev_bid ≠ some p.bid_type ∧ fl.hist_bid_ok then
      { db1 with bid_history := db1.bid_history ++ [(prev_bid, p.bid_type)] }
    else db1
  let db3 :=
    if prev_status ≠ some p.status then
      let dbh :=
        if fl.hist_status_ok then
          { db2 with status_history := db2.status_history ++ [(prev_status, p.status)] }
        else db2
      if p.status = .Won ∧ fl.contract_ok then { dbh with has_contract := true } else dbh
    else db2
  { db3 with changelog := db3.changelog ++ changeLogBlock prev_bid prev_status p fl }

/-- Embedding of `Project.save` (models.py lines 142-285) for the transition
and audit behaviour: `prev` is the previously persisted row (`none` on
creation), the result is the persisted record (with milestone dates
assigned) together with the updated audit stores. -/
def projectSave (prev : Option ProjRec) (p0 : ProjRec) (today : ℤ)
    (fl : AuditFlags) (db : AuditDB) : ProjRec × AuditDB :=
  let p := applyTransitionDates (prev.map (·.status)) p0 today
  (p, auditWrites prev p fl db)

/- ### Contract saving (`ProjectContract.save`, models.py lines 465-473) -/

structure ContractRec where
  actual_start : Option ℤ
  actual_end : Option ℤ
  actual_duration : Option ℤ
deriving DecidableEq

/-- Embedding of `ProjectContract.save`: when both bounds are present the
duration is recomputed as `max(0, (end - start).days)`; otherwise the method
leaves `actual_duration` untouched. -/
def projectContractSave (c : ContractRec) : ContractRec :=
  match c.actual_start, c.actual_end with
  | some s, some e => { c with actual_duration := some (max 0 (e - s)) }
  | _, _ => c

/- ### Similarity scorer (`import_obn_lost_bids.py` lines 144-200)
Strings are processed as `List Char`; float scores are exact rationals. -/

/-- The whitespace class of Python's `str.split`, `str.strip` and `\s`
(ASCII range). -/
def pySpace (c : Char) : Bool :=
  c = ' ' || c = '\t' || c = '\n' || c = '\r' || c = '\x0b' || c = '\x0c'

/-- Python `name.split()`: split on whitespace runs, discarding empty pieces. -/
def splitWsAux : List Char → List Char → List (List Char)
  | [], acc => if acc.isEmpty then [] else [acc.reverse]
  | c :: rest, acc =>
    if pySpace c then
      if acc.isEmpty then splitWsAux rest [] else acc.reverse :: splitWsAux rest []
    else splitWsAux rest (c :: acc)

def pySplit (l : List Char) : List (List Char) :=
  splitWsAux l []

/-- Embedding of `normalize_name` (lines 144-154): drop the leading `[*\s]+` run, collapse
whitespace via `' '.join(name.split())`, lower-case, strip.  A falsy (empty)
input yields `''`. -/
def normalize_name (s : String) : List Char :=
  let l1 := s.toList.dropWhile (fun c => c = '*' || pySpace c)
  let l2 := List.intercalate [' '] (pySplit l1)
  let l3 := l2.map Char.toLower
  ((l3.dropWhile pySpace).reverse.dropWhile pySpace).reverse

/-- Python's substring test `small in big` on character lists (contiguous,
with the empty list a substring of everything). -/
def isSubstring (small : List Char) : List Char → Bool
  | [] => small.isEmpty
  | c :: rest => small.isPrefixOf (c :: rest) || isSubstring small rest

/-- Computation `get_ngrams(s, 2)` before deduplication: all consecutive character
pairs. -/
def bigrams : List Char → List (List Char)
  | a :: b :: rest => [a, b] :: bigrams (b :: rest)
  | _ => []

/-- Embedding of `calculate_similarity` (lines 157-200): the fixed priority cascade -
empty guard, exact normalized match, substring with length-ratio boost, word
overlap Jaccard, character-bigram Jaccard. -/
def calculate_similarity (s1 s2 : String) : ℚ :=
  let n1 := normalize_name s1
  let n2 := normalize_name s2
  if n1 = [] ∨ n2 = [] then 0
  else if n1 = n2 then 1
  else if isSubstring n1 n2 = true ∨ isSubstring n2 n1 = true then
    7/10 + 2/10 * (((min n1.length n2.length : ℕ) : ℚ) / ((max n1.length n2.length : ℕ) : ℚ))
  else
    let w1 := (pySplit n1).dedup
    let w2 := (pySplit n2).dedup
    let common := w1.filter (fun w => w ∈ w2)
    let total := (w1 ++ w2).dedup
    if w1 ≠ [] ∧ w2 ≠ [] ∧ common ≠ [] then
      1/2 + 2/5 * ((common.length : ℚ) / (total.length : ℚ))
    else
      let g1 := (bigrams n1).dedup
      let g2 := (bigrams n2).dedup
      if g1 ≠ [] ∧ g2 ≠ [] then
        let inter := g1.filter (fun g => g ∈ g2)
        let uni := (g1 ++ g2).dedup
        if uni.length ≠ 0 then 3/10 * ((inter.length : ℚ) / (uni.length : ℚ)) else 0
      else 0

/-! Theorems settling the claims, with shared helper lemmas. -/

/-- C1: the documented waterfall example: directCost 100000, gm 20%, duration
with downtime 10, overhead day-rate at its default 21000, depreciation 5000,
taxes 2000 derives revenue 125000.00, gross profit 25000.00, total overhead
210000.00, EBITDA -185000.00, EBIT -190000.00, net -192000.00, EBIT/day
-19000.00 and net/day -19200.00, all rounded half-up to 2 decimals. -/
theorem C1_waterfall_example :
    (financialSave ⟨some 100000, some 20, some 21000, some 10, some 5000, some 2000⟩).total_revenue
        = some 125000 ∧
    (financialSave ⟨some 100000, some 20, some 21000, some 10, some 5000, some 2000⟩).gp
        = some 25000 ∧
    (financialSave ⟨some 100000, some 20, some 21000, some 10, some 5000, some 2000⟩).total_overhead
        = some 210000 ∧
    (financialSave ⟨some 100000, some 20, some 21000, some 10, some 5000, some 2000⟩).ebitda_amount
        = some (-185000) ∧
    (financialSave ⟨some 100000, some 20, some 21000, some 10, some 5000, some 2000⟩).ebit_amount
        = some (-190000) ∧
    (financialSave ⟨some 100000, some 20, some 21000, some 10, some 5000, some 2000⟩).net_amount
        = some (-192000) ∧
    (financialSave ⟨some 100000, some 20, some 21000, some 10, some 5000, some 2000⟩).ebit_day
        = some (-19000) ∧
    (financialSave ⟨some 100000, some 20, some 21000, some 10, some 5000, some 2000⟩).net_day
        = some (-19200) := by
  norm_num [financialSave, resolveOverheadRate, quantize2?, quantize2, roundHalfUp,
    OVERHEAD_DAYRATE_DEFAULT]

/-- C2: a gross margin of 100 percent makes the revenue denominator zero, so
`total_revenue` is null and every downstream derived field is null too,
whatever the other inputs are. -/
theorem C2_gm100_propagates_null (cost o dur dep tax : Option ℚ) :
    (financialSave ⟨cost, some 100, o, dur, dep, tax⟩).total_revenue = none ∧
    (financialSave ⟨cost, some 100, o, dur, dep, tax⟩).gp = none ∧
    (financialSave ⟨cost, some 100, o, dur, dep, tax⟩).ebitda_amount = none ∧
    (financialSave ⟨cost, some 100, o, dur, dep, tax⟩).ebitda_pct = none ∧
    (financialSave ⟨cost, some 100, o, dur, dep, tax⟩).ebit_amount = none ∧
    (financialSave ⟨cost, some 100, o, dur, dep, tax⟩).ebit_pct = none ∧
    (financialSave ⟨cost, some 100, o, dur, dep, tax⟩).net_amount = none ∧
    (financialSave ⟨cost, some 100, o, dur, dep, tax⟩).net_pct = none ∧
    (financialSave ⟨cost, some 100, o, dur, dep, tax⟩).ebit_day = none ∧
    (financialSave ⟨cost, some 100, o, dur, dep, tax⟩).net_day = none := by
  cases cost <;> cases dur <;>
    norm_num [financialSave, quantize2?]

/-- C7 fails as stated: the code guards `total_overhead` with
`duration_td != 0`, so a record with non-null overhead day-rate 5 and
non-null duration 0 gets a null `total_overhead` instead of the rounded
product 0. -/
theorem C7_counterexample_duration_zero :
    (financialSave ⟨none, none, some 5, some 0, none, none⟩).total_overhead = none := by
  norm_num [financialSave, quantize2?]

/-- C7 amended: with a non-null, nonzero overhead day-rate and a non-null,
nonzero duration, `total_overhead` is the half-up-rounded product; it is null
exactly when the duration is null or zero (the rate operand can never be
null after the default substitution). -/
theorem C7_amended_total_overhead (c g dep tax : Option ℚ) (r d : ℚ)
    (hr : r ≠ 0) (hd : d ≠ 0) :
    (financialSave ⟨c, g, some r, some d, dep, tax⟩).total_overhead
        = some (quantize2 (r * d)) ∧
    (∀ o : Option ℚ, (financialSave ⟨c, g, o, some 0, dep, tax⟩).total_overhead = none) ∧
    (∀ o : Option ℚ, (financialSave ⟨c, g, o, none, dep, tax⟩).total_overhead = none) := by
  refine ⟨?_, fun o => ?_, fun o => ?_⟩ <;>
    simp [financialSave, resolveOverheadRate, quantize2?, hr, hd]

theorem C7_amended_total_overhead_witness :
    (5 : ℚ) ≠ 0 ∧ (3 : ℚ) ≠ 0 ∧
    (financialSave ⟨none, none, some 5, some 3, none, none⟩).total_overhead
        = some (quantize2 (5 * 3)) :=
  ⟨by decide, by decide,
    (C7_amended_total_overhead none none none none 5 3 (by decide) (by decide)).1⟩

set_option maxHeartbeats 1600000 in
/-- C8: with duration-with-downtime 0 and inputs that allow the amounts to
be computed (cost and a gm other than 100 present), the per-day fields are
null while the EBITDA, EBIT and net amounts are all computed. -/
theorem C8_duration_zero_per_day (c g : ℚ) (hg : g ≠ 100) (o dep tax : Option ℚ) :
    (financialSave ⟨some c, some g, o, some 0, dep, tax⟩).ebit_day = none ∧
    (financialSave ⟨some c, some g, o, some 0, dep, tax⟩).net_day = none ∧
    (financialSave ⟨some c, some g, o, some 0, dep, tax⟩).ebitda_amount.isSome = true ∧
    (financialSave ⟨some c, some g, o, some 0, dep, tax⟩).ebit_amount.isSome = true ∧
    (financialSave ⟨some c, some g, o, some 0, dep, tax⟩).net_amount.isSome = true := by
  have hden : (1 : ℚ) - g / 100 ≠ 0 := by
    intro h
    apply hg
    field_simp at h
    linarith
  cases dep <;> cases tax <;>
    norm_num [financialSave, quantize2?, hden]

theorem C8_duration_zero_per_day_witness :
    (20 : ℚ) ≠ 100 ∧
    (financialSave ⟨some 100000, some 20, none, some 0, none, none⟩).ebit_day = none ∧
    (financialSave ⟨some 100000, some 20, none, some 0, none, none⟩).net_amount.isSome = true :=
  ⟨by decide, (C8_duration_zero_per_day 100000 20 (by decide) none none none).1,
    (C8_duration_zero_per_day 100000 20 (by decide) none none none).2.2.2.2⟩

/-- C10: an explicitly supplied overhead day-rate of 0 is falsy, so the
derivation substitutes the default 21000.00: the derived record is identical
to the one computed with no supplied rate, and with duration 10 the total
overhead comes out as 210000, not 0. -/
theorem C10_zero_rate_uses_default (c g dur dep tax : Option ℚ) :
    financialSave ⟨c, g, some 0, dur, dep, tax⟩ = financialSave ⟨c, g, none, dur, dep, tax⟩ ∧
    (financialSave ⟨c, g, some 0, some 10, dep, tax⟩).total_overhead = some 210000 := by
  have h : resolveOverheadRate (some 0) = resolveOverheadRate none := by
    simp [resolveOverheadRate]
  constructor
  · simp only [financialSave, h]
  · simp only [financialSave, h]
    norm_num [resolveOverheadRate, quantize2?, quantize2, roundHalfUp, OVERHEAD_DAYRATE_DEFAULT]

/-! Lifecycle helper lemmas. -/

theorem stampSubmission_status (s : Option BidStatus) (t : ℤ) (p : ProjRec) :
    (stampSubmission s t p).status = p.status := by
  unfold stampSubmission; split <;> rfl

theorem stampAward_status (s : Option BidStatus) (t : ℤ) (p : ProjRec) :
    (stampAward s t p).status = p.status := by
  unfold stampAward; split <;> rfl

theorem stampLost_status (s : Option BidStatus) (t : ℤ) (p : ProjRec) :
    (stampLost s t p).status = p.status := by
  unfold stampLost; split <;> rfl

theorem stampSubmission_bid (s : Option BidStatus) (t : ℤ) (p : ProjRec) :
    (stampSubmission s t p).bid_type = p.bid_type := by
  unfold stampSubmission; split <;> rfl

theorem stampAward_bid (s : Option BidStatus) (t : ℤ) (p : ProjRec) :
    (stampAward s t p).bid_type = p.bid_type := by
  unfold stampAward; split <;> rfl

theorem stampLost_bid (s : Option BidStatus) (t : ℤ) (p : ProjRec) :
    (stampLost s t p).bid_type = p.bid_type := by
  unfold stampLost; split <;> rfl

theorem stampAward_submission (s : Option BidStatus) (t : ℤ) (p : ProjRec) :
    (stampAward s t p).submission_date = p.submission_date := by
  unfold stampAward; split <;> rfl

theorem stampLost_submission (s : Option BidStatus) (t : ℤ) (p : ProjRec) :
    (stampLost s t p).submission_date = p.submission_date := by
  unfold stampLost; split <;> rfl

theorem applyTransitionDates_status (s : Option BidStatus) (p : ProjRec) (t : ℤ) :
    (applyTransitionDates s p t).status = p.status := by
  unfold applyTransitionDates
  rw [stampLost_status, stampAward_status, stampSubmission_status]

theorem applyTransitionDates_bid (s : Option BidStatus) (p : ProjRec) (t : ℤ) :
    (applyTransitionDates s p t).bid_type = p.bid_type := by
  unfold applyTransitionDates
  rw [stampLost_bid, stampAward_bid, stampSubmission_bid]

theorem applyTransitionDates_submission (s : Option BidStatus) (p : ProjRec) (t : ℤ) :
    (applyTransitionDates s p t).submission_date = (stampSubmission s t p).submission_date := by
  unfold applyTransitionDates
  rw [stampLost_submission, stampAward_submission]

/-- A record already in Submitted state saved again with previous status
Submitted is left entirely unchanged by the date stamping. -/
theorem applyTransitionDates_resubmit (p : ProjRec) (t : ℤ) (hs : p.status = .Submitted) :
    applyTransitionDates (some .Submitted) p t = p := by
  unfold applyTransitionDates stampSubmission stampAward stampLost
  simp [hs]

/-- C3: a save that moves a record into Submitted from any other previous
status (or creates it in Submitted) stamps `submission_date` with the
processing date only when it is unset; an explicitly supplied or stored date
is kept, and a second save in Submitted state never changes the stored
date. -/
theorem C3_submission_date_stamping (prev : Option BidStatus) (p : ProjRec)
    (today today2 : ℤ) (hs : p.status = .Submitted) (hprev : prev ≠ some .Submitted) :
    (p.submission_date = none →
      (applyTransitionDates prev p today).submission_date = some today) ∧
    (∀ d, p.submission_date = some d →
      (applyTransitionDates prev p today).submission_date = some d) ∧
    ProjRec.submission_date
        (applyTransitionDates (some .Submitted) (applyTransitionDates prev p today) today2)
      = (applyTransitionDates prev p today).submission_date := by
  refine ⟨fun hnone => ?_, fun d hd => ?_, ?_⟩
  · rw [applyTransitionDates_submission]
    unfold stampSubmission
    rw [if_pos ⟨hs, Or.inr (Or.inr hprev), hnone⟩]
  · rw [applyTransitionDates_submission]
    unfold stampSubmission
    split
    · next h => rw [hd] at h; exact absurd h.2.2 (by simp)
    · exact hd
  · rw [applyTransitionDates_resubmit _ _ (by rw [applyTransitionDates_status]; exact hs)]

theorem auditWrites_snapshots (prev : Option ProjRec) (p : ProjRec) (fl : AuditFlags)
    (db : AuditDB) :
    (auditWrites prev p fl db).snapshots = db.snapshots ++ snapshotBlock prev p fl := by
  simp only [auditWrites]
  split_ifs <;> rfl

theorem auditWrites_changelog (prev : Option ProjRec) (p : ProjRec) (fl : AuditFlags)
    (db : AuditDB) :
    (auditWrites prev p fl db).changelog
      = db.changelog ++ changeLogBlock (prev.map (·.bid_type)) (prev.map (·.status)) p fl := by
  simp only [auditWrites]
  split_ifs <;> rfl

theorem snapshotBlock_status_only (pv p : ProjRec) (hb : pv.bid_type = p.bid_type)
    (hs : pv.status ≠ p.status) :
    snapshotBlock (some pv) p allOk = [(ChangeKind.STATUS, pv)] := by
  simp [snapshotBlock, allOk, hb, hs]

theorem snapshotBlock_bid_only (pv p : ProjRec) (hb : pv.bid_type ≠ p.bid_type)
    (hs : pv.status = p.status) :
    snapshotBlock (some pv) p allOk = [(ChangeKind.BID, pv)] := by
  simp [snapshotBlock, allOk, hb, hs]

theorem changeLogBlock_status_only (pb : Option BidType) (ps : Option BidStatus) (p : ProjRec)
    (hs : ps ≠ some p.status) (hb : pb = some p.bid_type) :
    changeLogBlock pb ps p allOk = [statusLogRow ps p] := by
  simp [changeLogBlock, allOk, hs, hb]

theorem changeLogBlock_bid_only (pb : Option BidType) (ps : Option BidStatus) (p : ProjRec)
    (hs : ps = some p.status) (hb : pb ≠ some p.bid_type) :
    changeLogBlock pb ps p allOk = [bidLogRow pb p] := by
  simp [changeLogBlock, allOk, hs, hb]

/-- C4: on an existing record, a save changing only the status (respectively
only the bid type) appends, when the audit writes succeed, exactly one
snapshot row and exactly one change-log row for that change; and whatever
audit writes fail, the primary save still returns the record with its new
status/bid type and milestone dates assigned. -/
theorem C4_one_audit_row_per_change (pv p0 : ProjRec) (today : ℤ) (db : AuditDB) :
    (∀ fl, (projectSave (some pv) p0 today fl db).1
      = applyTransitionDates (some pv.status) p0 today) ∧
    (pv.status ≠ p0.status → pv.bid_type = p0.bid_type →
      (projectSave (some pv) p0 today allOk db).2.snapshots
          = db.snapshots ++ [(ChangeKind.STATUS, pv)] ∧
      (projectSave (some pv) p0 today allOk db).2.changelog
          = db.changelog ++ [statusLogRow (some pv.status)
              (applyTransitionDates (some pv.status) p0 today)]) ∧
    (pv.bid_type ≠ p0.bid_type → pv.status = p0.status →
      (projectSave (some pv) p0 today allOk db).2.snapshots
          = db.snapshots ++ [(ChangeKind.BID, pv)] ∧
      (projectSave (some pv) p0 today allOk db).2.changelog
          = db.changelog ++ [bidLogRow (some pv.bid_type)
              (applyTransitionDates (some pv.status) p0 today)]) := by
  have hst := applyTransitionDates_status (some pv.status) p0 today
  have hbt := applyTransitionDates_bid (some pv.status) p0 today
  have hm1 : Option.map (fun x : ProjRec => x.bid_type) (some pv) = some pv.bid_type := rfl
  have hm2 : Option.map (fun x : ProjRec => x.status) (some pv) = some pv.status := rfl
  refine ⟨fun fl => rfl, fun hs hb => ⟨?_, ?_⟩, fun hb hs => ⟨?_, ?_⟩⟩ <;>
    simp only [projectSave, hm1, hm2]
  · rw [auditWrites_snapshots, snapshotBlock_status_only _ _ (by rw [hbt]; exact hb)
      (by rw [hst]; exact hs)]
  · rw [auditWrites_changelog, hm1, hm2, changeLogBlock_status_only _ _ _
      (by rw [ne_eq, Option.some.injEq, hst]; exact hs)
      (by rw [Option.some.injEq, hbt]; exact hb)]
  · rw [auditWrites_snapshots, snapshotBlock_bid_only _ _ (by rw [hbt]; exact hb)
      (by rw [hst]; exact hs)]
  · rw [auditWrites_changelog, hm1, hm2, changeLogBlock_bid_only _ _ _
      (by rw [Option.some.injEq, hst]; exact hs)
      (by rw [ne_eq, Option.some.injEq, hbt]; exact hb)]

def emptyAuditDB : AuditDB := ⟨[], [], [], [], false⟩

def noAuditOk : AuditFlags := ⟨false, false, false, false, false, false, false⟩

theorem C4_one_audit_row_per_change_witness :
    (projectSave (some ⟨.BQ, .Ongoing, none, none, none⟩) ⟨.BQ, .Submitted, none, none, none⟩
        5 noAuditOk emptyAuditDB).1
      = applyTransitionDates (some .Ongoing) ⟨.BQ, .Submitted, none, none, none⟩ 5 ∧
    (projectSave (some ⟨.BQ, .Ongoing, none, none, none⟩) ⟨.BQ, .Submitted, none, none, none⟩
        5 allOk emptyAuditDB).2.snapshots
      = [(ChangeKind.STATUS, ⟨.BQ, .Ongoing, none, none, none⟩)] ∧
    (projectSave (some ⟨.BQ, .Ongoing, none, none, none⟩) ⟨.BQ, .Submitted, none, none, none⟩
        5 allOk emptyAuditDB).2.changelog
      = [statusLogRow (some .Ongoing)
          (applyTransitionDates (some .Ongoing) ⟨.BQ, .Submitted, none, none, none⟩ 5)] :=
  ⟨(C4_one_audit_row_per_change ⟨.BQ, .Ongoing, none, none, none⟩
      ⟨.BQ, .Submitted, none, none, none⟩ 5 emptyAuditDB).1 noAuditOk,
   ((C4_one_audit_row_per_change ⟨.BQ, .Ongoing, none, none, none⟩
      ⟨.BQ, .Submitted, none, none, none⟩ 5 emptyAuditDB).2.1 (by decide) rfl).1,
   ((C4_one_audit_row_per_change ⟨.BQ, .Ongoing, none, none, none⟩
      ⟨.BQ, .Submitted, none, none, none⟩ 5 emptyAuditDB).2.1 (by decide) rfl).2⟩

/-- C9 fails as stated: `ProjectContract.save` only recomputes
`actual_duration` when both bounds are present, so clearing `actual_end`
after a save leaves the previously derived duration (5) in place instead of
nulling it. -/
theorem C9_counterexample_stale_duration :
    ContractRec.actual_end
        (projectContractSave
          { projectContractSave ⟨some 0, some 5, none⟩ with actual_end := none }) = none ∧
    ContractRec.actual_duration
        (projectContractSave
          { projectContractSave ⟨some 0, some 5, none⟩ with actual_end := none }) = some 5 := by
  decide

/-- C9 amended: after a save, `actual_duration` is the non-negative day
difference `max 0 (end - start)` whenever both bounds are present; when
either bound is missing the save leaves `actual_duration` unchanged (so it
is null only if it was never computed), rather than nulling it. -/
theorem C9_amended_contract_duration (c : ContractRec) :
    (∀ s e, c.actual_start = some s → c.actual_end = some e →
      (projectContractSave c).actual_duration = some (max 0 (e - s)) ∧
        ∀ v, (projectContractSave c).actual_duration = some v → 0 ≤ v) ∧
    (c.actual_start = none ∨ c.actual_end = none →
      (projectContractSave c).actual_duration = c.actual_duration) := by
  obtain ⟨cs, ce, cd⟩ := c
  constructor
  · rintro s e rfl rfl
    refine ⟨rfl, fun v hv => ?_⟩
    simp only [projectContractSave, Option.some.injEq] at hv
    omega
  · rintro (rfl | rfl)
    · rfl
    · cases cs <;> rfl

theorem C9_amended_contract_duration_witness :
    (projectContractSave ⟨some 2, some 9, none⟩).actual_duration = some (max 0 (9 - 2)) ∧
    (projectContractSave ⟨some 10, none, some 3⟩).actual_duration = some 3 :=
  ⟨((C9_amended_contract_duration ⟨some 2, some 9, none⟩).1 2 9 rfl rfl).1,
   (C9_amended_contract_duration ⟨some 10, none, some 3⟩).2 (Or.inr rfl)⟩

/-! Similarity helper lemmas. -/

theorem isPrefixOf_length_le :
    ∀ s t : List Char, s.isPrefixOf t = true → s.length ≤ t.length
  | [], _, _ => Nat.zero_le _
  | _ :: _, [], h => by simp [List.isPrefixOf] at h
  | a :: s, b :: t, h => by
    simp only [List.isPrefixOf, Bool.and_eq_true, beq_iff_eq] at h
    simpa using Nat.succ_le_succ (isPrefixOf_length_le s t h.2)

theorem isPrefixOf_eq_of_length :
    ∀ s t : List Char, s.isPrefixOf t = true → s.length = t.length → s = t
  | [], [], _, _ => rfl
  | [], _ :: _, _, hl => by simp at hl
  | _ :: _, [], h, _ => by simp [List.isPrefixOf] at h
  | a :: s, b :: t, h, hl => by
    simp only [List.isPrefixOf, Bool.and_eq_true, beq_iff_eq] at h
    simp only [List.length_cons, Nat.add_right_cancel_iff] at hl
    rw [h.1, isPrefixOf_eq_of_length s t h.2 hl]

theorem isSubstring_length_le :
    ∀ s t : List Char, isSubstring s t = true → s.length ≤ t.length
  | s, [], h => by
    simp only [isSubstring, List.isEmpty_iff] at h
    simp [h]
  | s, c :: t, h => by
    rw [isSubstring, Bool.or_eq_true] at h
    rcases h with h1 | h2
    · exact isPrefixOf_length_le _ _ h1
    · exact Nat.le_succ_of_le (isSubstring_length_le s t h2)

theorem isSubstring_eq_of_length :
    ∀ s t : List Char, isSubstring s t = true → s.length = t.length → s = t
  | s, [], h, _ => by
    simp only [isSubstring, List.isEmpty_iff] at h
    exact h
  | s, c :: t, h, hl => by
    rw [isSubstring, Bool.or_eq_true] at h
    rcases h with h1 | h2
    · exact isPrefixOf_eq_of_length _ _ h1 hl
    · have hle := isSubstring_length_le s t h2
      simp only [List.length_cons] at hl
      omega

/-- C5 fails as stated: the text `"*"` normalizes to the empty form, so a
pair with identical normalized forms (here the pair `("*", "*")`, in
particular `similarity(a, a)`) scores 0.0 instead of 1.0 because the empty
guard fires first. -/
theorem C5_counterexample_star :
    calculate_similarity "*" "*" ≠ 1 := by
  have h : normalize_name "*" = [] := by decide
  simp [calculate_similarity, h]

/-- C5 amended: for every pair of texts whose normalized forms are identical
and non-empty, the similarity is 1.0 (in particular `similarity(a, a) = 1.0`
for every `a` with a non-empty normalized form); and `similarity(a, "") = 0.0`
for every text `a`. -/
theorem C5_amended_normalized_equality :
    (∀ a b : String, normalize_name a = normalize_name b → normalize_name a ≠ [] →
      calculate_similarity a b = 1) ∧
    (∀ a : String, calculate_similarity a "" = 0) := by
  constructor
  · intro a b hab hne
    unfold calculate_similarity
    rw [if_neg (by rw [← hab]; exact fun h => h.elim hne hne), if_pos hab]
  · intro a
    have h : normalize_name "" = [] := by decide
    simp [calculate_similarity, h]

theorem C5_amended_normalized_equality_witness :
    calculate_similarity "Alpha" "  alpha" = 1 ∧ calculate_similarity "Alpha" "" = 0 :=
  ⟨C5_amended_normalized_equality.1 "Alpha" "  alpha" (by decide) (by decide),
   C5_amended_normalized_equality.2 "Alpha"⟩

/-- C6 fails as stated: `"*"` and `"x"` are non-empty texts with distinct
normalized forms, one of which (the empty form of `"*"`) is a substring of
the other, yet the score is 0.0, not the substring-branch value in
[0.7, 0.9): the empty guard pre-empts the substring rule. -/
theorem C6_counterexample_empty_side :
    normalize_name "*" ≠ normalize_name "x" ∧
    isSubstring (normalize_name "*") (normalize_name "x") = true ∧
    calculate_similarity "*" "x" = 0 := by
  refine ⟨by decide, by decide, ?_⟩
  have h : normalize_name "*" = [] := by decide
  simp [calculate_similarity, h]

/-- C6 amended: for every pair of texts whose normalized forms are
non-empty, distinct, and one a substring of the other, the similarity is
`0.7 + 0.2 * (shorter length / longer length)`, which always lies in
[0.7, 0.9); in particular the normalized forms of "OBN Survey" and
"OBN Survey Extension" have lengths 10 and 20, giving exactly 0.8. -/
theorem C6_amended_substring_boost (a b : String)
    (h1 : normalize_name a ≠ []) (h2 : normalize_name b ≠ [])
    (hne : normalize_name a ≠ normalize_name b)
    (hsub : isSubstring (normalize_name a) (normalize_name b) = true ∨
      isSubstring (normalize_name b) (normalize_name a) = true) :
    calculate_similarity a b
        = 7/10 + 2/10 * (((min (normalize_name a).length (normalize_name b).length : ℕ) : ℚ)
            / ((max (normalize_name a).length (normalize_name b).length : ℕ) : ℚ)) ∧
    7/10 ≤ calculate_similarity a b ∧ calculate_similarity a b < 9/10 ∧
    calculate_similarity "OBN Survey" "OBN Survey Extension" = 4/5 := by
  have heq : calculate_similarity a b
      = 7/10 + 2/10 * (((min (normalize_name a).length (normalize_name b).length : ℕ) : ℚ)
          / ((max (normalize_name a).length (normalize_name b).length : ℕ) : ℚ)) := by
    unfold calculate_similarity
    rw [if_neg (fun h => h.elim h1 h2), if_neg hne, if_pos hsub]
  have hlne : (normalize_name a).length ≠ (normalize_name b).length := by
    intro hl
    rcases hsub with h | h
    · exact hne (isSubstring_eq_of_length _ _ h hl)
    · exact hne (isSubstring_eq_of_length _ _ h hl.symm).symm
  have hmM : min (normalize_name a).length (normalize_name b).length
      < max (normalize_name a).length (normalize_name b).length := min_lt_max.mpr hlne
  have hMnat : 0 < max (normalize_name a).length (normalize_name b).length :=
    lt_max_of_lt_left (List.length_pos.mpr h1)
  have hMpos : (0 : ℚ) < ((max (normalize_name a).length (normalize_name b).length : ℕ) : ℚ) := by
    exact_mod_cast hMnat
  have hr0 : (0 : ℚ) ≤ ((min (normalize_name a).length (normalize_name b).length : ℕ) : ℚ)
      / ((max (normalize_name a).length (normalize_name b).length : ℕ) : ℚ) := by positivity
  have hr1 : ((min (normalize_name a).length (normalize_name b).length : ℕ) : ℚ)
      / ((max (normalize_name a).length (normalize_name b).length : ℕ) : ℚ) < 1 := by
    rw [div_lt_one hMpos]
    exact_mod_cast hmM
  have hOBN : calculate_similarity "OBN Survey" "OBN Survey Extension" = 4/5 := by
    unfold calculate_similarity
    rw [if_neg (by decide), if_neg (by decide), if_pos (Or.inl (by decide))]
    rw [show (normalize_name "OBN Survey").length = 10 from by decide,
      show (normalize_name "OBN Survey Extension").length = 20 from by decide]
    norm_num
  exact ⟨heq, by rw [heq]; linarith, by rw [heq]; linarith, hOBN⟩

theorem C6_amended_substring_boost_witness :
    7/10 ≤ calculate_similarity "OBN Survey" "OBN Survey Extension" ∧
    calculate_similarity "OBN Survey" "OBN Survey Extension" < 9/10 ∧
    calculate_similarity "OBN Survey" "OBN Survey Extension" = 4/5 :=
  ⟨(C6_amended_substring_boost "OBN Survey" "OBN Survey Extension"
      (by decide) (by decide) (by decide) (Or.inl (by decide))).2.1,
   (C6_amended_substring_boost "OBN Survey" "OBN Survey Extension"
      (by decide) (by decide) (by decide) (Or.inl (by decide))).2.2.1,
   (C6_amended_substring_boost "OBN Survey" "OBN Survey Extension"
      (by decide) (by decide) (by decide) (Or.inl (by decide))).2.2.2⟩

theorem C3_submission_date_stamping_witness :
    ProjRec.submission_date
        (applyTransitionDates (some .Ongoing) ⟨.BQ, .Submitted, none, none, none⟩ 100)
      = some 100 ∧
    ProjRec.submission_date
        (applyTransitionDates (some .Won) ⟨.BQ, .Submitted, some 7, none, none⟩ 100)
      = some 7 :=
  ⟨(C3_submission_date_stamping (some .Ongoing) ⟨.BQ, .Submitted, none, none, none⟩
      100 200 rfl (by decide)).1 rfl,
   (C3_submission_date_stamping (some .Won) ⟨.BQ, .Submitted, some 7, none, none⟩
      100 200 rfl (by decide)).2.1 7 rfl⟩
